import Mathlib

/-!
Verification of the task-execution core of the Deep-agent backend.

The development shallowly embeds two Python modules:

* `Offline` embeds `main_offline.py`: the `OfflineAgent` class with its
  plan generator `create_simple_plan`, the step runner `execute_step`
  and the task driver `execute_task`.
* `Deep` embeds the tool layer of `main.py`: the `DeepAgent` methods
  `read_file`, `write_file`, `list_directory`, `search_text`,
  `replace_text` and `execute_command`.

Python exceptions are embedded with `Except String`; each place where
the Python code can raise is driven by an explicit environment record,
and every `try/except` of the source becomes a *body* function in
`Except` together with a wrapper that pattern-matches the outcome, so
that the exception-capture behaviour of the source is itself an object
of the embedding.  File-system state, where it matters, is a flat map
from path strings to contents.
-/

/-- Whether `pat` occurs as a contiguous run inside `s` (char lists). -/
def listIsInfix (pat : List Char) : List Char → Bool
  | [] => pat.isEmpty
  | c :: rest => pat.isPrefixOf (c :: rest) || listIsInfix pat rest

/-- Substring test: embeds the Python expression `pat in s` on strings. -/
def containsSub (s pat : String) : Bool :=
  listIsInfix pat.data s.data

/-- Python `str.lower()` (over the ASCII range, which is all the plan
keywords need), computed on the character list. -/
def pyLower (s : String) : String :=
  String.mk (s.data.map Char.toLower)

namespace Offline

/-- One plan step, the dict built by `OfflineAgent.create_simple_plan`
(`main_offline.py`): keys `step_number`, `objective`, `action`,
`tools_needed`, `expected_outcome`. -/
structure Step where
  step_number : Nat
  objective : String
  action : String
  tools_needed : List String
  expected_outcome : String
  deriving Repr, DecidableEq

/-- A plan: the dict `{"steps": steps}` returned by `create_simple_plan`. -/
structure Plan where
  steps : List Step
  deriving Repr, DecidableEq

/-- A conversation message: a dict with keys `role` and `content`. -/
structure Message where
  role : String
  content : String
  deriving Repr, DecidableEq

/-- The per-step outcome record built by `OfflineAgent.execute_step`:
keys `step`, `objective`, `tools_used`, `status`, `result`. -/
structure StepResult where
  step : Nat
  objective : String
  tools_used : List String
  status : String
  result : String
  deriving Repr, DecidableEq

/-- The request model `AgentRequest` of `main_offline.py`. -/
structure AgentRequest where
  task : String
  context : Option (List (String × String)) := none
  constraints : Option (List String) := none
  deriving Repr, DecidableEq

/-- The dict passed as `data` in a successful `execute_task` response:
keys `status`, `plan`, `results`, `messages`. -/
structure TaskData where
  status : String
  plan : Plan
  results : List StepResult
  messages : List Message
  deriving Repr, DecidableEq

/-- The response model `AgentResponse` of `main_offline.py`. -/
structure AgentResponse where
  success : Bool
  message : String
  data : Option TaskData := none
  error : Option String := none
  deriving Repr, DecidableEq

/-- Condition of the first `if` of `create_simple_plan`:
`"list" in task_lower or "show" in task_lower or "directory" in task_lower`. -/
def wants_list (task_lower : String) : Bool :=
  containsSub task_lower "list" || containsSub task_lower "show" ||
    containsSub task_lower "directory"

/-- Condition of the second `if` of `create_simple_plan`:
`"create" in task_lower or "write" in task_lower or "file" in task_lower`. -/
def wants_write (task_lower : String) : Bool :=
  containsSub task_lower "create" || containsSub task_lower "write" ||
    containsSub task_lower "file"

/-- Condition of the third `if` of `create_simple_plan`:
`"search" in task_lower or "find" in task_lower`. -/
def wants_search (task_lower : String) : Bool :=
  containsSub task_lower "search" || containsSub task_lower "find"

/-- Condition of the fourth `if` of `create_simple_plan`:
`"run" in task_lower or "execute" in task_lower or "command" in task_lower`. -/
def wants_command (task_lower : String) : Bool :=
  containsSub task_lower "run" || containsSub task_lower "execute" ||
    containsSub task_lower "command"

/-- The step appended when `wants_list` holds. -/
def listStep (n : Nat) : Step :=
  { step_number := n
    objective := "List directory contents"
    action := "Use list_directory_tool"
    tools_needed := ["list_directory_tool"]
    expected_outcome := "Directory listing displayed" }

/-- The step appended when `wants_write` holds. -/
def writeStep (n : Nat) : Step :=
  { step_number := n
    objective := "Create or modify file"
    action := "Use write_file_tool"
    tools_needed := ["write_file_tool"]
    expected_outcome := "File created or modified" }

/-- The step appended when `wants_search` holds. -/
def searchStep (n : Nat) : Step :=
  { step_number := n
    objective := "Search for text in files"
    action := "Use search_text_tool"
    tools_needed := ["search_text_tool"]
    expected_outcome := "Search results found" }

/-- The step appended when `wants_command` holds. -/
def commandStep (n : Nat) : Step :=
  { step_number := n
    objective := "Execute terminal command"
    action := "Use execute_command_tool"
    tools_needed := ["execute_command_tool"]
    expected_outcome := "Command executed" }

/-- The generic single step synthesized when no keyword matched
(`main_offline.py`, lines 117-124). -/
def fallbackStep (task : String) : Step :=
  { step_number := 1
    objective := "Execute task: " ++ task
    action := "Use available tools as needed"
    tools_needed := ["list_directory_tool", "read_file_tool", "write_file_tool"]
    expected_outcome := "Task completed" }

/-- `OfflineAgent.create_simple_plan` (`main_offline.py`, lines 68-126).
The Python mutation of `steps` and `step_num` is rendered as shadowing
lets; each conditional append carries the current `step_num`. -/
def create_simple_plan (task : String) : Plan :=
  let task_lower := pyLower task
  let steps : List Step := []
  let step_num : Nat := 1
  let (steps, step_num) :=
    if wants_list task_lower then (steps ++ [listStep step_num], step_num + 1)
    else (steps, step_num)
  let (steps, step_num) :=
    if wants_write task_lower then (steps ++ [writeStep step_num], step_num + 1)
    else (steps, step_num)
  let (steps, step_num) :=
    if wants_search task_lower then (steps ++ [searchStep step_num], step_num + 1)
    else (steps, step_num)
  let (steps, _) :=
    if wants_command task_lower then (steps ++ [commandStep step_num], step_num + 1)
    else (steps, step_num)
  if steps.isEmpty then { steps := [fallbackStep task] } else { steps := steps }

/-- A side effect on the real file system performed by the offline agent. -/
inductive Effect where
  | wroteFile (path : String) (content : String)
  deriving Repr, DecidableEq

/-- The content written to `hello_world.py` by `execute_step`. -/
def helloContent : String :=
  "#!/usr/bin/env python3\nprint(\"Hello, World!\")\n"

/-- Environment of external operations the offline agent performs.  Each
field is the outcome the Python runtime would deliver: `iterWorkspace`
is `self.workspace_root.iterdir()` (a list of entry names paired with
an is-directory flag, or a raised exception rendered by `str(e)`),
`writeHello` is the `open(...).write(...)` of `hello_world.py`, and
`logInfo` is a call of `logger.info` (an external library call inside
the `try` of `execute_task`; like any Python call it may raise).  A
single outcome per field models a deterministic runtime: every call of
the same operation during one task behaves the same way. -/
structure Env where
  iterWorkspace : Except String (List (String × Bool))
  writeHello : Except String Unit
  logInfo : Except String Unit

/-- `OfflineAgent.execute_step` (`main_offline.py`, lines 128-175).
Returns the outcome record together with the list of real file-system
effects performed.  The `try/except` around each simulated tool is the
`match` on the corresponding `Env` outcome; the `search_text_tool` and
`execute_command_tool` branches only append constant text (their `try`
bodies cannot raise). -/
def execute_step (env : Env) (step : Step)
    (_context : List (String × String)) : StepResult × List Effect :=
  let base : StepResult :=
    { step := step.step_number
      objective := step.objective
      tools_used := step.tools_needed
      status := "completed"
      result := "Executed: " ++ step.objective }
  let (r, effs) :=
    if "list_directory_tool" ∈ step.tools_needed then
      match env.iterWorkspace with
      | .ok entries =>
          let items := entries.map
            (fun e => (if e.2 then "DIR" else "FILE") ++ ": " ++ e.1)
          ({ base with result := base.result ++
              "\nDirectory listing: " ++ toString items.length ++ " items found" },
            ([] : List Effect))
      | .error e =>
          ({ base with result := base.result ++ "\nDirectory listing error: " ++ e },
            ([] : List Effect))
    else (base, [])
  let (r, effs) :=
    if "write_file_tool" ∈ step.tools_needed then
      match env.writeHello with
      | .ok _ =>
          ({ r with result := r.result ++ "\nCreated file: /workspace/hello_world.py" },
            effs ++ [Effect.wroteFile "/workspace/hello_world.py" helloContent])
      | .error e =>
          ({ r with result := r.result ++ "\nFile creation error: " ++ e }, effs)
    else (r, effs)
  let r :=
    if "search_text_tool" ∈ step.tools_needed then
      { r with result := r.result ++ "\nSearch completed: Found relevant files" }
    else r
  let r :=
    if "execute_command_tool" ∈ step.tools_needed then
      { r with result := r.result ++ "\nCommand executed successfully" }
    else r
  (r, effs)

/-- The message appended to `messages` after a step completes. -/
def stepMessage (env : Env) (ctx : List (String × String)) (step : Step) : Message :=
  { role := "assistant"
    content := "Step " ++ toString step.step_number ++ " completed: " ++
      (execute_step env step ctx).1.result }

/-- The `for step in plan["steps"]` loop of `execute_task`
(`main_offline.py`, lines 195-205): per step it calls `logger.info`,
runs `execute_step`, appends the outcome to `results` and the step
message to `messages`. -/
def run_steps (env : Env) (ctx : List (String × String)) :
    List Step → List StepResult → List Message → List Effect →
    Except String (List StepResult × List Message × List Effect)
  | [], results, messages, effs => .ok (results, messages, effs)
  | step :: rest, results, messages, effs => do
      let _ ← env.logInfo
      let (step_result, stepEffs) := execute_step env step ctx
      run_steps env ctx rest (results ++ [step_result])
        (messages ++ [stepMessage env ctx step]) (effs ++ stepEffs)

/-- The `try` body of `OfflineAgent.execute_task` (`main_offline.py`,
lines 179-222), in the exception monad.  The raising points are the
`logger.info` calls and the operations inside `execute_step` (the
latter are caught there and never surface here). -/
def execute_task_body (env : Env) (req : AgentRequest) :
    Except String (AgentResponse × List Effect) := do
  let _ ← env.logInfo
  let plan := create_simple_plan req.task
  let _ ← env.logInfo
  let messages : List Message :=
    [{ role := "assistant"
       content := "Created plan with " ++ toString plan.steps.length ++ " steps" }]
  let (results, messages, effs) ←
    run_steps env (req.context.getD []) plan.steps [] messages []
  let messages := messages ++
    [{ role := "assistant", content := "All steps completed successfully" }]
  .ok
    ({ success := true
       message := "Task execution completed"
       data := some
         { status := "completed"
           plan := plan
           results := results
           messages := messages }
       error := none }, effs)

/-- `OfflineAgent.execute_task` (`main_offline.py`, lines 177-230): the
outermost `try/except Exception` turning any raised exception into the
failure response. -/
def execute_task (env : Env) (req : AgentRequest) : AgentResponse × List Effect :=
  match execute_task_body env req with
  | .ok r => r
  | .error e =>
      ({ success := false
         message := "Task execution failed"
         data := none
         error := some e }, [])

end Offline

namespace Deep

/-- A Python value as stored in the `data` dict of a response. -/
inductive PyVal where
  | str (s : String)
  | int (n : Int)
  | bool (b : Bool)
  | none
  | list (xs : List PyVal)
  | dict (fields : List (String × PyVal))

/-- The response model `AgentResponse` of `main.py`; `data` is an
optional dict rendered as an association list. -/
structure Response where
  success : Bool
  message : String
  data : Option (List (String × PyVal)) := Option.none
  error : Option String := Option.none

/-- A flat file system: paths mapped to text contents; the newest
binding of a path shadows older ones. -/
def FS : Type := List (String × String)

/-- Content of a path, if the file exists. -/
def fsGet (fs : FS) (p : String) : Option String :=
  (fs.find? (fun kv => kv.1 == p)).map (fun kv => kv.2)

/-- Embeds `Path(p).exists()` over the flat file system. -/
def fsExists (fs : FS) (p : String) : Bool :=
  (fsGet fs p).isSome

/-- Write a file: embeds `open(p, "w").write(c)` (create or overwrite). -/
def fsSet (fs : FS) (p : String) (c : String) : FS :=
  (p, c) :: fs

/-- Python `str.splitlines()` restricted to the LF terminator (the only
terminator the repository writes); returns the lines without their
terminators, with no empty trailing line. -/
def pySplitlines (s : String) : List String :=
  if s.isEmpty then []
  else if s.endsWith "\n" then (s.splitOn "\n").dropLast
  else s.splitOn "\n"

/-- The characters `re.escape` prefixes with a backslash. -/
def reSpecialChars : List Char :=
  ['(', ')', '[', ']', '\x7b', '\x7d', '?', '*', '+', '-', '|', '^', '$',
    '\\', '.', '&', '~', '#', ' ', '\t', '\n', '\r', '\x0b', '\x0c']

/-- Python `re.escape`. -/
def reEscape (s : String) : String :=
  String.mk (s.data.foldr
    (fun c acc => if reSpecialChars.contains c then '\\' :: c :: acc else c :: acc) [])

/-- Python slice `s[a:b]` on character positions. -/
def pySub (s : String) (a b : Nat) : String :=
  String.mk ((s.data.take b).drop a)

/-- Python `s[:pos].count("\n")`. -/
def countNlBefore (s : String) (pos : Nat) : Nat :=
  ((s.data.take pos).filter (fun c => c == '\n')).length

/-- Python `s.rfind("\n", 0, pos) + 1`: start of the line containing
position `pos` (`rfind` returns `-1` when absent, so this is `0`). -/
def lineStart (s : String) (pos : Nat) : Nat :=
  match ((List.range pos).filter (fun i => s.data[i]? == some '\n')).getLast? with
  | some i => i + 1
  | Option.none => 0

/-- Python `s.find("\n", pos)` with `-1` replaced by `len(s)`: end of
the line containing position `pos`. -/
def lineEnd (s : String) (pos : Nat) : Nat :=
  match ((List.range s.length).filter
      (fun i => decide (pos ≤ i) && (s.data[i]? == some '\n'))).head? with
  | some i => i
  | Option.none => s.length

/-- Helper for Python `str.count(old)` with non-empty `old`:
non-overlapping occurrences, scanning left to right. -/
def pyCountAux (old : List Char) : List Char → Nat
  | [] => 0
  | c :: rest =>
      if old.isPrefixOf (c :: rest) && !old.isEmpty then
        1 + pyCountAux old (rest.drop (old.length - 1))
      else pyCountAux old rest
termination_by s => s.length
decreasing_by
  all_goals simp [List.length_drop]
  all_goals omega

/-- Python `s.count(old)` (an empty pattern matches at every gap). -/
def pyCount (s old : String) : Nat :=
  if old.isEmpty then s.length + 1 else pyCountAux old.data s.data

/-- Helper for Python `str.replace(old, new, n)`: replace the first `n`
non-overlapping occurrences, scanning left to right; an empty `old`
inserts `new` at each gap. -/
def pyReplaceNAux (old new : List Char) : Nat → List Char → List Char
  | 0, s => s
  | _ + 1, [] => if old.isEmpty then new else []
  | n + 1, c :: rest =>
      if old.isEmpty then new ++ c :: pyReplaceNAux old new n rest
      else if old.isPrefixOf (c :: rest) then
        new ++ pyReplaceNAux old new n (rest.drop (old.length - 1))
      else c :: pyReplaceNAux old new (n + 1) rest
termination_by n s => s.length
decreasing_by
  all_goals simp [List.length_drop]
  all_goals omega

/-- Python `s.replace(old, new, n)` for a non-negative count. -/
def pyReplaceN (s old new : String) (n : Nat) : String :=
  String.mk (pyReplaceNAux old.data new.data n s.data)

/-- Python `s.replace(old, new)`: all occurrences (`s.length + 1`
bounds the number of match positions, including gap matches). -/
def pyReplaceAll (s old new : String) : String :=
  pyReplaceN s old new (s.length + 1)

/-- Python `s.replace(old, new, n)` for an arbitrary integer count
(negative counts replace everything). -/
def pyReplaceInt (s old new : String) (n : Int) : String :=
  if n < 0 then pyReplaceAll s old new else pyReplaceN s old new n.toNat

/-- Kind of a Python exception raised while reading a file during the
search scan; `search_text` treats `UnicodeDecodeError` and
`PermissionError` specially. -/
inductive PyExcKind where
  | unicodeDecodeError
  | permissionError
  | otherError
  deriving Repr, DecidableEq

/-- A raised Python exception: its kind and its `str(e)` text. -/
structure PyExc where
  kind : PyExcKind
  msg : String
  deriving Repr, DecidableEq

/-- One entry delivered by `Path.iterdir()` together with its `stat()`
data (`st_mtime`, a float in Python, is modelled as an integer). -/
structure DirEntry where
  name : String
  path : String
  is_file : Bool
  is_dir : Bool
  size : Int
  mtime : Int
  deriving Repr, DecidableEq

/-- Outcome of `asyncio.wait_for(process.communicate(), timeout=...)`:
either the timeout expired, or the process exited with a return code
and raw output streams, each modelled by the outcome of its
`.decode("utf-8")` call. -/
inductive CommOutcome where
  | timedOut
  | exited (returncode : Int) (stdoutDec stderrDec : Except String String)

/-- Environment of external operations for the `main.py` tools.  Fault
fields of type `Option String` are `some e` when the corresponding
Python call raises an exception rendered by `str(e)`:
`readErr` is `open(..., "r").read()` (permission or decode failure),
`copyErr` is `shutil.copy2`, `mkdirErr` is `Path.mkdir`, `writeErr` is
`open(..., "w").write(...)`.  The function fields deliver what the OS,
`pathlib` and `re` would: directory existence and contents, `rglob`
expansion, the file test, the per-file UTF-8 read used by the search
scan, regex compilation, the compiled regex `finditer` positions, the
working-directory test, subprocess creation, and
`process.communicate()` under `asyncio.wait_for`. -/
structure Env where
  readErr : Option String
  copyErr : Option String
  mkdirErr : Option String
  writeErr : Option String
  dirExists : String → Bool
  iterDir : String → Except String (List DirEntry)
  rglob : String → Except String (List String)
  isFile : String → Bool
  readTextUtf8 : String → Except PyExc String
  compileRegex : String → Bool → Except String Unit
  finditer : String → Bool → String → List (Nat × Nat)
  workdirExists : String → Bool
  spawnErr : Option String
  communicate : Except String CommOutcome

/-- The request model `FileReadRequest` of `main.py`. -/
structure FileReadRequest where
  file_path : String
  encoding : String := "utf-8"
  deriving Repr, DecidableEq

/-- The request model `FileWriteRequest` of `main.py`. -/
structure FileWriteRequest where
  file_path : String
  content : String
  encoding : String := "utf-8"
  backup : Bool := true
  deriving Repr, DecidableEq

/-- The request model `SearchRequest` of `main.py`. -/
structure SearchRequest where
  pattern : String
  file_path : Option String := Option.none
  directory : Option String := Option.none
  case_sensitive : Bool := false
  regex : Bool := false
  deriving Repr, DecidableEq

/-- The request model `ReplaceRequest` of `main.py`. -/
structure ReplaceRequest where
  file_path : String
  old_text : String
  new_text : String
  count : Int := -1
  backup : Bool := true
  deriving Repr, DecidableEq

/-- The request model `TerminalRequest` of `main.py`. -/
structure TerminalRequest where
  command : String
  working_directory : Option String := Option.none
  timeout : Int := 30
  deriving Repr, DecidableEq

/-- The `try` body of `DeepAgent.read_file` (`main.py`, lines 104-134). -/
def read_file_body (env : Env) (fs : FS) (req : FileReadRequest) :
    Except String Response :=
  let file_path := req.file_path
  if fsExists fs file_path = false then
    .ok { success := false
          message := "File not found"
          data := Option.none
          error := some ("File " ++ file_path ++ " does not exist") }
  else
    match env.readErr with
    | some e => .error e
    | Option.none =>
        let content := (fsGet fs file_path).getD ""
        .ok { success := true
              message := "File read successfully"
              data := some
                [("content", .str content), ("file_path", .str file_path),
                 ("size", .int content.length),
                 ("lines", .int (pySplitlines content).length)]
              error := Option.none }

/-- `DeepAgent.read_file`: the `try/except` wrapper around its body. -/
def read_file (env : Env) (fs : FS) (req : FileReadRequest) : Response :=
  match read_file_body env fs req with
  | .ok r => r
  | .error e =>
      { success := false, message := "Failed to read file"
        data := Option.none, error := some e }

/-- The `try` body of `DeepAgent.write_file` (`main.py`, lines 136-167),
threading the file system; a raised exception carries the file system
as mutated so far. -/
def write_file_body (env : Env) (req : FileWriteRequest) (fs : FS) :
    Except (String × FS) (Response × FS) :=
  let file_path := req.file_path
  let backupStep : Except (String × FS) FS :=
    if req.backup && fsExists fs file_path then
      match env.copyErr with
      | some e => .error (e, fs)
      | Option.none =>
          .ok (fsSet fs (file_path ++ ".backup") ((fsGet fs file_path).getD ""))
    else .ok fs
  match backupStep with
  | .error ef => .error ef
  | .ok fs =>
      match env.mkdirErr with
      | some e => .error (e, fs)
      | Option.none =>
          match env.writeErr with
          | some e => .error (e, fs)
          | Option.none =>
              .ok ({ success := true
                     message := "File written successfully"
                     data := some
                       [("file_path", .str file_path),
                        ("size", .int req.content.length),
                        ("lines", .int (pySplitlines req.content).length)]
                     error := Option.none },
                   fsSet fs file_path req.content)

/-- `DeepAgent.write_file`: the `try/except` wrapper around its body. -/
def write_file (env : Env) (req : FileWriteRequest) (fs : FS) : Response × FS :=
  match write_file_body env req fs with
  | .ok r => r
  | .error (e, fs) =>
      ({ success := false, message := "Failed to write file"
         data := Option.none, error := some e }, fs)

/-- Rendering of one directory entry as the item dict of
`DeepAgent.list_directory`. -/
def dirItemVal (e : DirEntry) : PyVal :=
  .dict [("name", .str e.name), ("path", .str e.path),
         ("is_file", .bool e.is_file), ("is_directory", .bool e.is_dir),
         ("size", if e.is_file then .int e.size else .none),
         ("modified", .int e.mtime)]

/-- The `try` body of `DeepAgent.list_directory` (`main.py`,
lines 169-207). -/
def list_directory_body (env : Env) (directory : Option String) :
    Except String Response :=
  let dir_path := directory.getD "/workspace"
  if env.dirExists dir_path = false then
    .ok { success := false
          message := "Directory not found"
          data := Option.none
          error := some ("Directory " ++ dir_path ++ " does not exist") }
  else
    match env.iterDir dir_path with
    | .error e => .error e
    | .ok entries =>
        let items := entries.map dirItemVal
        .ok { success := true
              message := "Directory listed successfully"
              data := some
                [("directory", .str dir_path), ("items", .list items),
                 ("count", .int items.length)]
              error := Option.none }

/-- `DeepAgent.list_directory`: the `try/except` wrapper around its body. -/
def list_directory (env : Env) (directory : Option String) : Response :=
  match list_directory_body env directory with
  | .ok r => r
  | .error e =>
      { success := false, message := "Failed to list directory"
        data := Option.none, error := some e }

/-- One file with matches, as accumulated by the scan loop of
`DeepAgent.search_text`: the file path, the content that was read, and
the `(start, end)` positions delivered by `finditer`. -/
structure FileHits where
  file_path : String
  content : String
  matchList : List (Nat × Nat)

/-- The per-match dict of `search_text`: keys `match`, `line_number`,
`line_content`, `start`, `end` (`main.py`, lines 239-253). -/
def matchVal (content : String) (m : Nat × Nat) : PyVal :=
  .dict [("match", .str (pySub content m.1 m.2)),
         ("line_number", .int (countNlBefore content m.1 + 1)),
         ("line_content", .str (pySub content (lineStart content m.1) (lineEnd content m.2))),
         ("start", .int m.1), ("end", .int m.2)]

/-- The per-file dict of `search_text`: keys `file_path`, `matches`,
`match_count` (`main.py`, lines 255-259). -/
def fileHitsVal (fr : FileHits) : PyVal :=
  .dict [("file_path", .str fr.file_path),
         ("matches", .list (fr.matchList.map (matchVal fr.content))),
         ("match_count", .int fr.matchList.length)]

/-- `sum(r["match_count"] for r in results)`. -/
def totalMatches (results : List FileHits) : Nat :=
  (results.map (fun r => r.matchList.length)).sum

/-- The `for file_path in search_paths` loop of `DeepAgent.search_text`
(`main.py`, lines 230-261): non-files are skipped; a read failing with
`UnicodeDecodeError` or `PermissionError` is caught by the inner
`except` and the file is skipped (`continue`); any other raised
exception leaves the loop; files whose match list is empty contribute
nothing. -/
def searchLoop (env : Env) (pattern : String) (ignoreCase : Bool) :
    List String → List FileHits → Except String (List FileHits)
  | [], acc => .ok acc
  | p :: rest, acc =>
      if env.isFile p then
        match env.readTextUtf8 p with
        | .error exc =>
            if exc.kind = .unicodeDecodeError ∨ exc.kind = .permissionError then
              searchLoop env pattern ignoreCase rest acc
            else .error exc.msg
        | .ok content =>
            let ms := env.finditer pattern ignoreCase content
            if ms.isEmpty then searchLoop env pattern ignoreCase rest acc
            else searchLoop env pattern ignoreCase rest
              (acc ++ [{ file_path := p, content := content, matchList := ms }])
      else searchLoop env pattern ignoreCase rest acc

/-- The `try` body of `DeepAgent.search_text` (`main.py`,
lines 210-278): escape the pattern unless `regex` is set, compile it
(case-insensitively unless `case_sensitive`), choose the search paths
(`file_path` verbatim, else `rglob` of `directory`, else `rglob` of the
workspace root), scan, and render the results dict. -/
def search_text_body (env : Env) (req : SearchRequest) :
    Except String Response :=
  let pattern := if req.regex then req.pattern else reEscape req.pattern
  let ignoreCase := !req.case_sensitive
  match env.compileRegex pattern ignoreCase with
  | .error e => .error e
  | .ok _ =>
      let pathsOutcome : Except String (List String) :=
        match req.file_path with
        | some p => .ok [p]
        | Option.none =>
            match req.directory with
            | some d => env.rglob d
            | Option.none => env.rglob "/workspace"
      match pathsOutcome with
      | .error e => .error e
      | .ok search_paths =>
          match searchLoop env pattern ignoreCase search_paths [] with
          | .error e => .error e
          | .ok results =>
              .ok { success := true
                    message := "Search completed"
                    data := some
                      [("pattern", .str req.pattern),
                       ("results", .list (results.map fileHitsVal)),
                       ("total_matches", .int (totalMatches results))]
                    error := Option.none }

/-- `DeepAgent.search_text`: the `try/except` wrapper around its body. -/
def search_text (env : Env) (req : SearchRequest) : Response :=
  match search_text_body env req with
  | .ok r => r
  | .error e =>
      { success := false, message := "Failed to search text"
        data := Option.none, error := some e }

/-- The `try` body of `DeepAgent.replace_text` (`main.py`,
lines 281-327), threading the file system as in `write_file_body`. -/
def replace_text_body (env : Env) (req : ReplaceRequest) (fs : FS) :
    Except (String × FS) (Response × FS) :=
  let file_path := req.file_path
  if fsExists fs file_path = false then
    .ok ({ success := false
           message := "File not found"
           data := Option.none
           error := some ("File " ++ file_path ++ " does not exist") }, fs)
  else
    let backupStep : Except (String × FS) FS :=
      if req.backup then
        match env.copyErr with
        | some e => .error (e, fs)
        | Option.none =>
            .ok (fsSet fs (file_path ++ ".backup") ((fsGet fs file_path).getD ""))
      else .ok fs
    match backupStep with
    | .error ef => .error ef
    | .ok fs =>
        match env.readErr with
        | some e => .error (e, fs)
        | Option.none =>
            let content := (fsGet fs file_path).getD ""
            let new_content :=
              if req.count == -1 then pyReplaceAll content req.old_text req.new_text
              else pyReplaceInt content req.old_text req.new_text req.count
            let replacements_made : Int :=
              (pyCount content req.old_text : Int) -
                (pyCount new_content req.old_text : Int)
            match env.writeErr with
            | some e => .error (e, fs)
            | Option.none =>
                .ok ({ success := true
                       message := "Text replaced successfully"
                       data := some
                         [("file_path", .str file_path),
                          ("replacements_made", .int replacements_made),
                          ("old_text", .str req.old_text),
                          ("new_text", .str req.new_text)]
                       error := Option.none },
                     fsSet fs file_path new_content)

/-- `DeepAgent.replace_text`: the `try/except` wrapper around its body. -/
def replace_text (env : Env) (req : ReplaceRequest) (fs : FS) : Response × FS :=
  match replace_text_body env req fs with
  | .ok r => r
  | .error (e, fs) =>
      ({ success := false, message := "Failed to replace text"
         data := Option.none, error := some e }, fs)

/-- The `try` body of `DeepAgent.execute_command` (`main.py`,
lines 330-379).  The second component records whether `process.kill()`
was called.  The inner `try/except asyncio.TimeoutError` is the
`timedOut` branch of `communicate`; a decode failure of either output
stream raises past the inner handler. -/
def execute_command_body (env : Env) (req : TerminalRequest) :
    Except String (Response × Bool) :=
  let working_dir := req.working_directory.getD "/workspace"
  if env.workdirExists working_dir = false then
    .ok ({ success := false
           message := "Working directory not found"
           data := Option.none
           error := some ("Directory " ++ working_dir ++ " does not exist") }, false)
  else
    match env.spawnErr with
    | some e => .error e
    | Option.none =>
        match env.communicate with
        | .error e => .error e
        | .ok .timedOut =>
            .ok ({ success := false
                   message := "Command timed out"
                   data := Option.none
                   error := some ("Command exceeded timeout of " ++
                     toString req.timeout ++ " seconds") }, true)
        | .ok (.exited returncode stdoutDec stderrDec) =>
            match stdoutDec with
            | .error e => .error e
            | .ok out =>
                match stderrDec with
                | .error e => .error e
                | .ok errOut =>
                    .ok ({ success := returncode == 0
                           message := "Command executed"
                           data := some
                             [("command", .str req.command),
                              ("return_code", .int returncode),
                              ("stdout", .str out),
                              ("stderr", .str errOut),
                              ("working_directory", .str working_dir)]
                           error := Option.none }, false)

/-- `DeepAgent.execute_command`: the outer `try/except` wrapper. -/
def execute_command (env : Env) (req : TerminalRequest) : Response × Bool :=
  match execute_command_body env req with
  | .ok r => r
  | .error e =>
      ({ success := false, message := "Failed to execute command"
         data := Option.none, error := some e }, false)

end Deep

namespace Offline

/-- Whether `create_simple_plan` recognizes any action keyword in the
task text, i.e. whether at least one of its four conditionals fires;
its negation is exactly the fallback path. -/
def hasActionKeyword (task : String) : Bool :=
  wants_list (pyLower task) || wants_write (pyLower task) ||
    wants_search (pyLower task) || wants_command (pyLower task)

/-- Modelled from the spec (section 2): the Tool Registry is the fixed
named set list-directory, read-file, write-file, search-text,
execute-command, written with the `_tool` names the offline plans use.
This definition follows the wording of the spec, for comparison with
the plans the code produces. -/
def registry_tool_names : List String :=
  ["list_directory_tool", "read_file_tool", "write_file_tool",
    "search_text_tool", "execute_command_tool"]

/-- The claim of C3 as stated, as a decidable check: the plan for
`task` has exactly one step, its objective is the raw task text, and
its `tools_needed` equals (as a set) the full Tool Registry name set. -/
def fallback_claim_spec (task : String) : Bool :=
  match (create_simple_plan task).steps with
  | [s] =>
      (s.objective == task) &&
        registry_tool_names.all (fun t => s.tools_needed.contains t) &&
        s.tools_needed.all (fun t => registry_tool_names.contains t)
  | _ => false

/-- The tool names `execute_step` actually reacts to. -/
def simulated_tools : List String :=
  ["list_directory_tool", "write_file_tool", "search_text_tool",
    "execute_command_tool"]

/-- Text contributed to a step result by the `list_directory_tool`
branch of `execute_step`. -/
def listToolText (env : Env) : String :=
  match env.iterWorkspace with
  | .ok entries =>
      let items := entries.map
        (fun e => (if e.2 then "DIR" else "FILE") ++ ": " ++ e.1)
      "\nDirectory listing: " ++ toString items.length ++ " items found"
  | .error e => "\nDirectory listing error: " ++ e

/-- Text contributed to a step result by the `write_file_tool` branch
of `execute_step`. -/
def writeToolText (env : Env) : String :=
  match env.writeHello with
  | .ok _ => "\nCreated file: /workspace/hello_world.py"
  | .error e => "\nFile creation error: " ++ e

/-- Effects performed by the `write_file_tool` branch of `execute_step`. -/
def writeToolEffects (env : Env) : List Effect :=
  match env.writeHello with
  | .ok _ => [Effect.wroteFile "/workspace/hello_world.py" helloContent]
  | .error _ => []

/-- An environment on which every external operation succeeds. -/
def envOk : Env :=
  { iterWorkspace := .ok [("a.txt", false)]
    writeHello := .ok ()
    logInfo := .ok () }

/-- An environment whose `logger.info` call raises `boom`. -/
def envLogBoom : Env :=
  { iterWorkspace := .ok []
    writeHello := .ok ()
    logInfo := .error "boom" }

end Offline

namespace Deep

/-- A baseline environment on which every external operation succeeds
and every lookup is benign. -/
def envBase : Env :=
  { readErr := Option.none
    copyErr := Option.none
    mkdirErr := Option.none
    writeErr := Option.none
    dirExists := fun _ => true
    iterDir := fun _ => .ok []
    rglob := fun _ => .ok []
    isFile := fun _ => false
    readTextUtf8 := fun _ => .ok ""
    compileRegex := fun _ _ => .ok ()
    finditer := fun _ _ _ => []
    workdirExists := fun _ => true
    spawnErr := Option.none
    communicate := .ok (.exited 0 (.ok "") (.ok "")) }

/-- Environment whose file reads raise `io boom`. -/
def envReadBoom : Env := { envBase with readErr := some "io boom" }

/-- Environment whose `shutil.copy2` raises `copy boom`. -/
def envCopyBoom : Env := { envBase with copyErr := some "copy boom" }

/-- Environment whose `iterdir` raises `iter boom`. -/
def envIterBoom : Env :=
  { envBase with iterDir := fun _ => .error "iter boom" }

/-- Environment whose `re.compile` raises `regex boom`. -/
def envRegexBoom : Env :=
  { envBase with compileRegex := fun _ _ => .error "regex boom" }

/-- Environment whose subprocess creation raises `spawn boom`. -/
def envSpawnBoom : Env := { envBase with spawnErr := some "spawn boom" }

/-- Environment where the search scan finds one file whose read raises
`PermissionError: Permission denied`. -/
def envPermission : Env :=
  { envBase with
    rglob := fun _ => .ok ["f.txt"]
    isFile := fun _ => true
    readTextUtf8 := fun _ =>
      .error { kind := .permissionError, msg := "Permission denied" } }

/-- Environment where `communicate` hits the timeout. -/
def envTimeout : Env := { envBase with communicate := .ok .timedOut }

/-- Environment where the command exits with code 0 but its stdout is
not valid UTF-8, so `decode` raises. -/
def envDecodeFail : Env :=
  { envBase with
    communicate := .ok (.exited 0 (.error "utf-8 codec cannot decode byte") (.ok "")) }

/-- Environment where the command exits with code 7 and decodable
output streams. -/
def envExitSeven : Env :=
  { envBase with communicate := .ok (.exited 7 (.ok "out text") (.ok "err text")) }

/-- A one-file file system. -/
def fsA : FS := [("a.txt", "old content")]

end Deep

/-! ## Theorems -/

section OfflineHelpers

open Offline

/-- The outcome record built by `execute_step` always carries status
`completed`, whatever the step and the environment outcomes. -/
theorem execute_step_status (env : Env) (step : Step) (ctx : List (String × String)) :
    (execute_step env step ctx).1.status = "completed" := by
  unfold execute_step
  repeat' split
  all_goals rfl

/-- Unfolding of the step loop when the logger never raises: it maps
`execute_step` over the steps, appending one outcome record and one
step message per step, in plan order. -/
theorem run_steps_eq (env : Env) (ctx : List (String × String))
    (h : env.logInfo = .ok ()) :
    ∀ (steps : List Step) (results : List StepResult)
      (messages : List Message) (effs : List Effect),
      run_steps env ctx steps results messages effs =
        .ok (results ++ steps.map (fun s => (execute_step env s ctx).1),
          messages ++ steps.map (stepMessage env ctx),
          effs ++ (steps.map (fun s => (execute_step env s ctx).2)).flatten) := by
  intro steps
  induction steps with
  | nil => intro results messages effs; simp [run_steps]
  | cons step rest ih =>
      intro results messages effs
      simp only [run_steps, h, ih, bind, Except.bind, List.map_cons, List.flatten]
      simp [List.append_assoc]

/-- Unfolding of `execute_task` when the logger never raises: the full
success response. -/
theorem execute_task_ok (env : Env) (req : AgentRequest)
    (h : env.logInfo = .ok ()) :
    execute_task env req =
      ({ success := true
         message := "Task execution completed"
         data := some
           { status := "completed"
             plan := create_simple_plan req.task
             results := (create_simple_plan req.task).steps.map
               (fun s => (execute_step env s (req.context.getD [])).1)
             messages :=
               { role := "assistant"
                 content := "Created plan with " ++
                   toString (create_simple_plan req.task).steps.length ++ " steps" } ::
               ((create_simple_plan req.task).steps.map
                   (stepMessage env (req.context.getD [])) ++
                 [{ role := "assistant"
                    content := "All steps completed successfully" }]) }
         error := none },
       ((create_simple_plan req.task).steps.map
         (fun s => (execute_step env s (req.context.getD [])).2)).flatten) := by
  unfold execute_task execute_task_body
  simp [h, run_steps_eq env (req.context.getD []) h, bind, Except.bind]

/-- Unfolding of `execute_task` when the logger raises. -/
theorem execute_task_log_error (env : Env) (req : AgentRequest) (e : String)
    (h : env.logInfo = .error e) :
    execute_task env req =
      ({ success := false, message := "Task execution failed"
         data := none, error := some e }, []) := by
  simp [execute_task, execute_task_body, h, bind, Except.bind]

/-- A successful task execution forces the logger outcome to be benign. -/
theorem execute_task_success_log (env : Env) (req : AgentRequest)
    (h : (execute_task env req).1.success = true) : env.logInfo = .ok () := by
  cases hl : env.logInfo with
  | ok u => cases u; rfl
  | error e =>
      rw [execute_task_log_error env req e hl] at h
      simp at h

/-- Claim C1: every task execution returns a structured response; any
exception raised inside the plan/execute sequence of `execute_task` is
caught at its outermost boundary and reported as a response with
`success = false` and the exception text in the error field, while a
normally completed body is returned as is — nothing propagates to the
caller. -/
theorem offline_execute_task_catches_exceptions
    (env : Env) (req : AgentRequest) :
    (∀ e, execute_task_body env req = .error e →
      execute_task env req =
        ({ success := false, message := "Task execution failed"
           data := none, error := some e }, [])) ∧
    (∀ r, execute_task_body env req = .ok r → execute_task env req = r) := by
  constructor <;> intro x hx <;> simp [execute_task, hx]

/-- Witness for C1: on an environment whose logger raises `boom`, the
execution returns the failure response carrying that text. -/
theorem offline_execute_task_catches_exceptions_witness :
    execute_task envLogBoom { task := "xyz" } =
      ({ success := false, message := "Task execution failed"
         data := none, error := some "boom" }, []) :=
  (offline_execute_task_catches_exceptions envLogBoom { task := "xyz" }).1 "boom" rfl

/-- Counterexample for C3: for the task `xyz` the fallback path is
taken (no action keyword is recognized), yet the claimed shape fails:
the single step objective is not the raw task text and its tool list is
not the full registry set. -/
theorem offline_fallback_spec_claim_fails :
    hasActionKeyword "xyz" = false ∧ fallback_claim_spec "xyz" = false := by
  constructor <;> rfl

/-- Claim C3 (amended): when plan generation takes its fallback path
(no action keyword is recognized in the task text), the plan has
exactly one step, whose objective is `Execute task: ` followed by the
raw task text and whose `tools_needed` is the fixed three-tool list
`list_directory_tool`, `read_file_tool`, `write_file_tool` (a proper
subset of the Tool Registry name set). -/
theorem offline_fallback_plan_shape (task : String)
    (h : hasActionKeyword task = false) :
    (create_simple_plan task).steps =
      [{ step_number := 1
         objective := "Execute task: " ++ task
         action := "Use available tools as needed"
         tools_needed := ["list_directory_tool", "read_file_tool", "write_file_tool"]
         expected_outcome := "Task completed" }] := by
  simp only [hasActionKeyword, Bool.or_eq_false_iff] at h
  obtain ⟨⟨⟨h1, h2⟩, h3⟩, h4⟩ := h
  simp [create_simple_plan, h1, h2, h3, h4, fallbackStep]

/-- Witness for C3 (amended) at the task `xyz`. -/
theorem offline_fallback_plan_shape_witness :
    (create_simple_plan "xyz").steps =
      [{ step_number := 1
         objective := "Execute task: " ++ "xyz"
         action := "Use available tools as needed"
         tools_needed := ["list_directory_tool", "read_file_tool", "write_file_tool"]
         expected_outcome := "Task completed" }] :=
  offline_fallback_plan_shape "xyz" rfl

/-- Claim C4: for every task string the produced plan has at least one
step, and the `step_number` fields are the consecutive integers
1, 2, ... in list order. -/
theorem offline_plan_steps_numbering (task : String) :
    (create_simple_plan task).steps ≠ [] ∧
    (create_simple_plan task).steps.map Step.step_number =
      List.range' 1 (create_simple_plan task).steps.length := by
  cases h1 : wants_list (pyLower task) <;>
  cases h2 : wants_write (pyLower task) <;>
  cases h3 : wants_search (pyLower task) <;>
  cases h4 : wants_command (pyLower task) <;>
    simp [create_simple_plan, h1, h2, h3, h4, listStep, writeStep,
      searchStep, commandStep, fallbackStep] <;>
    decide

/-- Claim C5: a task execution that returns `success = true` carries a
results sequence with exactly one outcome record per plan step, in plan
order (it is the map of `execute_step` over the steps); every entry has
status `completed`; and the results accumulated after the first `k`
loop iterations number at most `k` (never more than the steps executed
so far). -/
theorem offline_results_match_steps (env : Env) (req : AgentRequest)
    (h : (execute_task env req).1.success = true) :
    ∃ d, (execute_task env req).1.data = some d ∧
      d.results = d.plan.steps.map
        (fun s => (execute_step env s (req.context.getD [])).1) ∧
      d.results.length = d.plan.steps.length ∧
      (∀ r ∈ d.results, r.status = "completed") ∧
      (∀ k, d.results.take k = (d.plan.steps.take k).map
        (fun s => (execute_step env s (req.context.getD [])).1)) ∧
      (∀ k, (d.results.take k).length ≤ k) := by
  have hl := execute_task_success_log env req h
  rw [execute_task_ok env req hl]
  refine ⟨_, rfl, rfl, by simp, ?_, ?_, ?_⟩
  · intro r hr
    obtain ⟨s, _, hs⟩ := List.mem_map.mp hr
    rw [← hs]
    exact execute_step_status env s (req.context.getD [])
  · intro k
    simp [List.map_take]
  · intro k
    simp [List.length_take]

/-- Witness for C5 at a concrete succeeding execution. -/
theorem offline_results_match_steps_witness :
    ∃ d, (execute_task envOk { task := "xyz" }).1.data = some d ∧
      d.results = d.plan.steps.map
        (fun s => (execute_step envOk s ([] : List (String × String))).1) ∧
      d.results.length = d.plan.steps.length ∧
      (∀ r ∈ d.results, r.status = "completed") ∧
      (∀ k, d.results.take k = (d.plan.steps.take k).map
        (fun s => (execute_step envOk s ([] : List (String × String))).1)) ∧
      (∀ k, (d.results.take k).length ≤ k) :=
  offline_results_match_steps envOk { task := "xyz" } rfl

/-- Claim C7: tool names outside the set `execute_step` reacts to have
no effect: appending an unknown name to a step changes neither the
result text nor the performed side effects, and the step still
completes (status `completed`). -/
theorem offline_unknown_tools_no_effect (env : Env) (step : Step)
    (ctx : List (String × String)) (n : String) (h : n ∉ simulated_tools) :
    ((execute_step env { step with tools_needed := step.tools_needed ++ [n] } ctx).1.result =
      (execute_step env step ctx).1.result) ∧
    ((execute_step env { step with tools_needed := step.tools_needed ++ [n] } ctx).1.status =
      "completed") ∧
    ((execute_step env { step with tools_needed := step.tools_needed ++ [n] } ctx).2 =
      (execute_step env step ctx).2) := by
  have hn1 : "list_directory_tool" ≠ n := by
    intro he; exact h (by rw [← he]; simp [simulated_tools])
  have hn2 : "write_file_tool" ≠ n := by
    intro he; exact h (by rw [← he]; simp [simulated_tools])
  have hn3 : "search_text_tool" ≠ n := by
    intro he; exact h (by rw [← he]; simp [simulated_tools])
  have hn4 : "execute_command_tool" ≠ n := by
    intro he; exact h (by rw [← he]; simp [simulated_tools])
  by_cases c1 : "list_directory_tool" ∈ step.tools_needed <;>
  by_cases c2 : "write_file_tool" ∈ step.tools_needed <;>
  by_cases c3 : "search_text_tool" ∈ step.tools_needed <;>
  by_cases c4 : "execute_command_tool" ∈ step.tools_needed <;>
    cases hi : env.iterWorkspace <;> cases hw : env.writeHello <;>
      simp [execute_step, List.mem_append, hn1, hn2, hn3, hn4,
        c1, c2, c3, c4, hi, hw]

/-- Witness for C7: adding the unknown name `magic_tool` to a step that
uses the directory listing tool leaves result text, status and effects
unchanged. -/
theorem offline_unknown_tools_no_effect_witness :
    ((execute_step envOk { (listStep 1) with
        tools_needed := (listStep 1).tools_needed ++ ["magic_tool"] } []).1.result =
      (execute_step envOk (listStep 1) []).1.result) ∧
    ((execute_step envOk { (listStep 1) with
        tools_needed := (listStep 1).tools_needed ++ ["magic_tool"] } []).1.status =
      "completed") ∧
    ((execute_step envOk { (listStep 1) with
        tools_needed := (listStep 1).tools_needed ++ ["magic_tool"] } []).2 =
      (execute_step envOk (listStep 1) []).2) :=
  offline_unknown_tools_no_effect envOk (listStep 1) [] "magic_tool" (by decide)

/-- Counterexample for C8: in the concrete execution of task `xyz` the
first message appended by the planning phase has content
`Created plan with 1 steps`, which differs from the
`Planning completed, N steps` text the claim states. -/
theorem offline_plan_summary_text_differs :
    ((execute_task envOk { task := "xyz" }).1.data.map
        (fun d => d.messages.head?)) =
      some (some { role := "assistant", content := "Created plan with 1 steps" }) ∧
    "Created plan with 1 steps" ≠ "Planning completed, 1 steps" := by
  constructor
  · rfl
  · decide

/-- Claim C8 (amended): on every successful task execution exactly one
planning summary message opens the transcript, with role `assistant`
and content `Created plan with N steps` where `N` is the number of plan
steps; it precedes all per-step messages. -/
theorem offline_plan_summary_message (env : Env) (req : AgentRequest)
    (h : (execute_task env req).1.success = true) :
    ∃ d, (execute_task env req).1.data = some d ∧
      d.messages =
        { role := "assistant"
          content := "Created plan with " ++
            toString d.plan.steps.length ++ " steps" } ::
        (d.plan.steps.map (stepMessage env (req.context.getD [])) ++
          [{ role := "assistant", content := "All steps completed successfully" }]) := by
  have hl := execute_task_success_log env req h
  rw [execute_task_ok env req hl]
  exact ⟨_, rfl, rfl⟩

/-- Witness for C8 (amended) at a concrete succeeding execution. -/
theorem offline_plan_summary_message_witness :
    ∃ d, (execute_task envOk { task := "xyz" }).1.data = some d ∧
      d.messages =
        { role := "assistant"
          content := "Created plan with " ++
            toString d.plan.steps.length ++ " steps" } ::
        (d.plan.steps.map (stepMessage envOk ([] : List (String × String))) ++
          [{ role := "assistant", content := "All steps completed successfully" }]) :=
  offline_plan_summary_message envOk { task := "xyz" } rfl

end OfflineHelpers

section DeepHelpers

open Deep

/-- Looking up the path just written yields the new content. -/
theorem fsGet_fsSet_same (fs : FS) (p c : String) :
    fsGet (fsSet fs p c) p = some c := by
  simp [fsGet, fsSet, List.find?]

/-- Writing one path leaves every other path unchanged. -/
theorem fsGet_fsSet_ne (fs : FS) (p c q : String) (h : p ≠ q) :
    fsGet (fsSet fs p c) q = fsGet fs q := by
  have hb : (p == q) = false := beq_eq_false_iff_ne.mpr h
  simp [fsGet, fsSet, List.find?, hb]

/-- The backup path differs from the path it backs up. -/
theorem backup_path_ne (p : String) : p ++ ".backup" ≠ p := by
  intro h
  have h2 := congrArg String.length h
  rw [String.length_append] at h2
  have h3 : (".backup").length = 7 := rfl
  omega

/-- Claim C6: when the command hits the configured timeout, the
subprocess is killed (second component `true`) and the tool returns the
failure response reporting the timeout, rather than raising. -/
theorem deep_execute_command_timeout (env : Env) (req : TerminalRequest)
    (h1 : env.workdirExists (req.working_directory.getD "/workspace") = true)
    (h2 : env.spawnErr = Option.none)
    (h3 : env.communicate = .ok .timedOut) :
    execute_command env req =
      ({ success := false
         message := "Command timed out"
         data := Option.none
         error := some ("Command exceeded timeout of " ++
           toString req.timeout ++ " seconds") }, true) := by
  simp [execute_command, execute_command_body, h1, h2, h3]

/-- Witness for C6: a command that sleeps past the default timeout. -/
theorem deep_execute_command_timeout_witness :
    execute_command envTimeout { command := "sleep 60" } =
      ({ success := false
         message := "Command timed out"
         data := Option.none
         error := some ("Command exceeded timeout of " ++
           toString (30 : Int) ++ " seconds") }, true) :=
  deep_execute_command_timeout envTimeout { command := "sleep 60" } rfl rfl rfl

/-- Counterexample for C9: a command that exits with return code 0
within the timeout but whose stdout bytes do not decode as UTF-8 makes
the tool report failure, so `success` is not equivalent to the return
code being 0. -/
theorem deep_execute_command_decode_cex :
    execute_command envDecodeFail { command := "x" } =
      ({ success := false
         message := "Failed to execute command"
         data := Option.none
         error := some "utf-8 codec cannot decode byte" }, false) ∧
    envDecodeFail.communicate =
      .ok (.exited 0 (.error "utf-8 codec cannot decode byte") (.ok "")) :=
  ⟨rfl, rfl⟩

/-- Claim C9 (amended): for a command that completes within the timeout
and whose output streams decode as UTF-8, the response has
`success = (returncode == 0)` and its data carries the return code,
stdout and stderr. -/
theorem deep_execute_command_completed (env : Env) (req : TerminalRequest)
    (rc : Int) (out errOut : String)
    (h1 : env.workdirExists (req.working_directory.getD "/workspace") = true)
    (h2 : env.spawnErr = Option.none)
    (h3 : env.communicate = .ok (.exited rc (.ok out) (.ok errOut))) :
    execute_command env req =
      ({ success := rc == 0
         message := "Command executed"
         data := some
           [("command", .str req.command), ("return_code", .int rc),
            ("stdout", .str out), ("stderr", .str errOut),
            ("working_directory", .str (req.working_directory.getD "/workspace"))]
         error := Option.none }, false) := by
  simp [execute_command, execute_command_body, h1, h2, h3]

/-- Witness for C9 (amended): a command exiting with code 7. -/
theorem deep_execute_command_completed_witness :
    execute_command envExitSeven { command := "do it" } =
      ({ success := (7 : Int) == 0
         message := "Command executed"
         data := some
           [("command", .str "do it"), ("return_code", .int 7),
            ("stdout", .str "out text"), ("stderr", .str "err text"),
            ("working_directory", .str "/workspace")]
         error := Option.none }, false) :=
  deep_execute_command_completed envExitSeven { command := "do it" }
    7 "out text" "err text" rfl rfl rfl

/-- Claim C10: a `write_file` call with backup enabled on an existing
file first copies the previous content to the sibling `.backup` path
(this holds as soon as the copy succeeds, whatever happens later), and
when the write succeeds the target content equals the requested
content. -/
theorem deep_write_file_backup (env : Env) (req : FileWriteRequest)
    (fs : FS) (hb : req.backup = true)
    (he : fsExists fs req.file_path = true)
    (hc : env.copyErr = Option.none) :
    (fsGet (write_file env req fs).2 (req.file_path ++ ".backup") =
      some ((fsGet fs req.file_path).getD "")) ∧
    ((write_file env req fs).1.success = true →
      fsGet (write_file env req fs).2 req.file_path = some req.content) := by
  cases hm : env.mkdirErr with
  | some e =>
      simp [write_file, write_file_body, hb, he, hc, hm, fsGet_fsSet_same]
  | none =>
      cases hw : env.writeErr with
      | some e =>
          simp [write_file, write_file_body, hb, he, hc, hm, hw, fsGet_fsSet_same]
      | none =>
          have hne : req.file_path ≠ req.file_path ++ ".backup" :=
            Ne.symm (backup_path_ne req.file_path)
          simp [write_file, write_file_body, hb, he, hc, hm, hw,
            fsGet_fsSet_ne _ _ _ _ hne, fsGet_fsSet_same]

/-- Witness for C10: overwriting `a.txt` with backup enabled. -/
theorem deep_write_file_backup_witness :
    (fsGet (write_file envBase { file_path := "a.txt", content := "new text" } fsA).2
        ("a.txt" ++ ".backup") =
      some ((fsGet fsA "a.txt").getD "")) ∧
    ((write_file envBase { file_path := "a.txt", content := "new text" } fsA).1.success = true →
      fsGet (write_file envBase { file_path := "a.txt", content := "new text" } fsA).2
          "a.txt" =
        some "new text") :=
  deep_write_file_backup envBase { file_path := "a.txt", content := "new text" }
    fsA rfl rfl rfl

/-- Counterexample for C2: an underlying permission failure during the
search-text scan is caught but not rendered as an error result — the
tool returns a success response with no error field, silently skipping
the unreadable file. -/
theorem deep_search_swallows_io_failure :
    search_text envPermission { pattern := "x" } =
      { success := true
        message := "Search completed"
        data := some
          [("pattern", .str "x"), ("results", .list []),
           ("total_matches", .int 0)]
        error := Option.none } ∧
    envPermission.readTextUtf8 "f.txt" =
      .error { kind := .permissionError, msg := "Permission denied" } :=
  ⟨rfl, rfl⟩

/-- Claim C2 (amended): no tool of the registry raises past its own
boundary.  For each of read-file, write-file, list-directory,
search-text, replace-text and execute-command, any exception escaping
the body is caught by the tool wrapper and rendered as a failure
response carrying the exception text (for the stateful tools, together
with the file system as mutated so far); except that decode and
permission errors on individual files during the search-text scan are
caught and skipped silently, the scan continuing without them. -/
theorem deep_tools_catch_errors :
    (∀ (env : Env) (fs : FS) (req : FileReadRequest) (e : String),
      read_file_body env fs req = .error e →
      read_file env fs req =
        { success := false, message := "Failed to read file"
          data := Option.none, error := some e }) ∧
    (∀ (env : Env) (req : FileWriteRequest) (fs : FS) (e : String) (fs2 : FS),
      write_file_body env req fs = .error (e, fs2) →
      write_file env req fs =
        ({ success := false, message := "Failed to write file"
           data := Option.none, error := some e }, fs2)) ∧
    (∀ (env : Env) (dir : Option String) (e : String),
      list_directory_body env dir = .error e →
      list_directory env dir =
        { success := false, message := "Failed to list directory"
          data := Option.none, error := some e }) ∧
    (∀ (env : Env) (req : SearchRequest) (e : String),
      search_text_body env req = .error e →
      search_text env req =
        { success := false, message := "Failed to search text"
          data := Option.none, error := some e }) ∧
    (∀ (env : Env) (req : ReplaceRequest) (fs : FS) (e : String) (fs2 : FS),
      replace_text_body env req fs = .error (e, fs2) →
      replace_text env req fs =
        ({ success := false, message := "Failed to replace text"
           data := Option.none, error := some e }, fs2)) ∧
    (∀ (env : Env) (req : TerminalRequest) (e : String),
      execute_command_body env req = .error e →
      execute_command env req =
        ({ success := false, message := "Failed to execute command"
           data := Option.none, error := some e }, false)) ∧
    (∀ (env : Env) (pattern : String) (ic : Bool) (p : String)
      (rest : List String) (acc : List FileHits) (exc : PyExc),
      (exc.kind = PyExcKind.unicodeDecodeError ∨ exc.kind = PyExcKind.permissionError) →
      env.isFile p = true → env.readTextUtf8 p = .error exc →
      searchLoop env pattern ic (p :: rest) acc = searchLoop env pattern ic rest acc) := by
  refine ⟨?_, ?_, ?_, ?_, ?_, ?_, ?_⟩
  · intro env fs req e he; simp [read_file, he]
  · intro env req fs e fs2 he; simp [write_file, he]
  · intro env dir e he; simp [list_directory, he]
  · intro env req e he; simp [search_text, he]
  · intro env req fs e fs2 he; simp [replace_text, he]
  · intro env req e he; simp [execute_command, he]
  · intro env pattern ic p rest acc exc hk hf hr
    simp only [searchLoop, hf, hr, if_true]
    rw [if_pos hk]

/-- Witness for C2 (amended): one concrete raising input per tool, plus
one skipped permission failure in the search scan. -/
theorem deep_tools_catch_errors_witness :
    (read_file envReadBoom fsA { file_path := "a.txt" } =
      { success := false, message := "Failed to read file"
        data := Option.none, error := some "io boom" }) ∧
    (write_file envCopyBoom { file_path := "a.txt", content := "new" } fsA =
      ({ success := false, message := "Failed to write file"
         data := Option.none, error := some "copy boom" }, fsA)) ∧
    (list_directory envIterBoom Option.none =
      { success := false, message := "Failed to list directory"
        data := Option.none, error := some "iter boom" }) ∧
    (search_text envRegexBoom { pattern := "[" } =
      { success := false, message := "Failed to search text"
        data := Option.none, error := some "regex boom" }) ∧
    (replace_text envCopyBoom
        { file_path := "a.txt", old_text := "old", new_text := "x" } fsA =
      ({ success := false, message := "Failed to replace text"
         data := Option.none, error := some "copy boom" }, fsA)) ∧
    (execute_command envSpawnBoom { command := "x" } =
      ({ success := false, message := "Failed to execute command"
         data := Option.none, error := some "spawn boom" }, false)) ∧
    (searchLoop envPermission "pat" true ["f.txt"] [] =
      searchLoop envPermission "pat" true [] []) :=
  ⟨deep_tools_catch_errors.1 envReadBoom fsA { file_path := "a.txt" } "io boom" rfl,
   deep_tools_catch_errors.2.1 envCopyBoom
     { file_path := "a.txt", content := "new" } fsA "copy boom" fsA rfl,
   deep_tools_catch_errors.2.2.1 envIterBoom Option.none "iter boom" rfl,
   deep_tools_catch_errors.2.2.2.1 envRegexBoom { pattern := "[" } "regex boom" rfl,
   deep_tools_catch_errors.2.2.2.2.1 envCopyBoom
     { file_path := "a.txt", old_text := "old", new_text := "x" } fsA "copy boom" fsA rfl,
   deep_tools_catch_errors.2.2.2.2.2.1 envSpawnBoom { command := "x" } "spawn boom" rfl,
   deep_tools_catch_errors.2.2.2.2.2.2 envPermission "pat" true "f.txt" [] []
     { kind := .permissionError, msg := "Permission denied" } (Or.inr rfl) rfl rfl⟩

end DeepHelpers
